import Mathlib

/-!
# TurboTracker — shallow embedding and verification

This file embeds the state engine of the TurboTracker extension
(`src/index.js`, second revision: `clampHeart`, `advanceTimeString`,
`parseTrackerBlock`, `convertSTTrackerToTT`, `tryImportSTTracker`,
`getMostRecentTracker`, `populatePrecedingUserMessages`, `processMessage`,
`regenTracker`, `populateAllMessages`) and proves or refutes the frozen
claims about it.

Modelling conventions:
* JavaScript strings are Lean `String`s; the character-level operations of
  the source (regex matching, `indexOf`, `split`, `trim`, `toLowerCase`)
  are implemented on `List Char`, restricted to ASCII, which covers every
  string the engine manipulates.
* `parseInt(x, 10)` is modelled by `Option Int` (`none` = `NaN`).
* A tracker's `heart` field holds either the raw string captured by the
  parser or the integer written by the clamp, so it is modelled as a sum.
* The external generation capability (`generateQuietPrompt`) is an oracle
  parameter; `none` models a rejected promise (the `catch` branches).
  `JSON.parse` inside the legacy importer is likewise an oracle
  (`none` = thrown syntax error or non-object payload).
* DOM rendering, status text, prompt construction and persistence calls
  have no effect on the engine state and are omitted.
-/

-- ── Character/string utilities (ASCII models of the JS built-ins) ─────

/-- ASCII `toLowerCase`. -/
def jsToLower (c : Char) : Char :=
  if 'A' ≤ c ∧ c ≤ 'Z' then Char.ofNat (c.toNat + 32) else c

/-- The whitespace class used by JS `trim` and `\s` (ASCII part). -/
def isWS (c : Char) : Bool :=
  c = ' ' ∨ c = '\t' ∨ c = '\n' ∨ c = '\r' ∨ c = '\x0b' ∨ c = '\x0c'

/-- `String.prototype.trim` on a character list. -/
def trimL (cs : List Char) : List Char :=
  ((cs.dropWhile isWS).reverse.dropWhile isWS).reverse

/-- `String.prototype.trim`. -/
def trimS (s : String) : String := ⟨trimL s.data⟩

/-- `pat` occurs at the head of `hay`. -/
def hasPre : List Char → List Char → Bool
  | [], _ => true
  | _ :: _, [] => false
  | p :: ps, h :: hs => p = h && hasPre ps hs

/-- First index at which `pat` occurs in `hay` (JS `indexOf` for substrings). -/
def subIdx (pat : List Char) : List Char → Option Nat
  | [] => if pat.isEmpty then some 0 else none
  | h :: t => if hasPre pat (h :: t) then some 0 else (subIdx pat t).map (· + 1)

/-- First index of character `c` (JS `indexOf` for a single character). -/
def chIdx (c : Char) : List Char → Option Nat
  | [] => none
  | a :: rest => if a = c then some 0 else (chIdx c rest).map (· + 1)

/-- JS `split(sep)` for a single separator character. -/
def splitCh (sep : Char) : List Char → List (List Char)
  | [] => [[]]
  | c :: rest =>
    if c = sep then [] :: splitCh sep rest
    else
      match splitCh sep rest with
      | g :: gs => (c :: g) :: gs
      | [] => [[c]]

/-- Decimal digit value. -/
def dval (c : Char) : Nat := c.toNat - '0'.toNat

/-- Value of a digit run. -/
def digitsVal (cs : List Char) : Nat := cs.foldl (fun a c => a * 10 + dval c) 0

/-- `parseInt(s, 10)`: skip leading whitespace, optional sign, then a
non-empty digit run; trailing garbage is ignored; `none` models `NaN`. -/
def parseIntJS (s : String) : Option Int :=
  let cs := s.data.dropWhile isWS
  let core : List Char → Option Nat := fun l =>
    let ds := l.takeWhile Char.isDigit
    if ds.isEmpty then none else some (digitsVal ds)
  match cs with
  | '-' :: rest => (core rest).map (fun n => -(n : Int))
  | '+' :: rest => (core rest).map (fun n => (n : Int))
  | _ => (core cs).map (fun n => (n : Int))

/-- JS `x || d` on a `parseInt` result: `NaN` and `0` are falsy. -/
def jsOrInt (x : Option Int) (d : Int) : Int :=
  match x with
  | none => d
  | some n => if n = 0 then d else n

/-- A JS string coerced through truthiness: `""` is falsy. -/
def truthyS : Option String → Option String
  | some s => if s = "" then none else some s
  | none => none

/-- JS `a || b || null` for two optional strings. -/
def jsOrS (a b : Option String) : Option String :=
  match truthyS a with
  | some s => some s
  | none => truthyS b

/-- JS `a || b || ... || ''` over a chain of optional strings. -/
def jsSChain : List (Option String) → String
  | [] => ""
  | a :: rest =>
    match truthyS a with
    | some s => s
    | none => jsSChain rest

/-- `String(n).padStart(2, '0')` for the minute field. -/
def pad2 (n : Nat) : String :=
  if n < 10 then "0" ++ toString n else toString n

-- ── Data model ────────────────────────────────────────────────────────

/-- One entry of the parsed `characters:` list. -/
structure CharState where
  name : String
  outfit : String
  state : String
  position : String
deriving DecidableEq

def emptyChar : CharState := ⟨"", "", "", ""⟩

/-- The `heart` field of a tracker record: the parser stores the raw
string, the clamp stores an integer. -/
inductive HeartV where
  | str (s : String)
  | num (n : Int)
deriving DecidableEq

/-- Canonical tracker record (`tt_tracker`). `none` models JS `null`. -/
structure TrackerState where
  time : Option String
  location : Option String
  weather : Option String
  heart : Option HeartV
  characters : List CharState
deriving DecidableEq

def emptyTracker : TrackerState := ⟨none, none, none, none, []⟩

/-- `parseInt` applied to a heart value (`parseInt` of a number is the
number itself for the magnitudes involved). -/
def heartParse : HeartV → Option Int
  | .str s => parseIntJS s
  | .num n => some n

-- ── Heart clamp (`clampHeart`, src/index.js:522-530) ──────────────────

/-- `clampHeart(rawValue, prevHeart, maxShift)`.  Arguments carry the
`parseInt(·, 10)` result of the JS argument (`none` = `NaN`); the `|| 0`,
`|| 2500` and `Math.max(1, ·)` coercions of the source are reproduced. -/
def clampHeart (rawValue prevHeart maxShift : Option Int) : Int :=
  let prev := jsOrInt prevHeart 0
  let shift := max 1 (jsOrInt maxShift 2500)
  match rawValue with
  | none => prev
  | some v =>
    let lo := max 0 (prev - shift)
    let hi := min 69999 (prev + shift)
    max lo (min hi v)

/-- `clampHeart` as invoked on a tracker heart value and numeric settings. -/
def clampHeartH (h : HeartV) (prev maxShift : Int) : Int :=
  clampHeart (heartParse h) (some prev) (some maxShift)

-- ── Time advancer (`advanceTimeString`, src/index.js:537-563) ─────────

/-- The regex `^(\d{1,2}):(\d{2})\s*(AM|PM)(.*)/i`: hour (with the
backtracking of `\d{1,2}` followed by `:`), two-digit minutes, optional
whitespace, the period, and the rest of the line (`.` does not cross a
newline, so the captured suffix stops at the first `\n`/`\r`). -/
def readHour (cs : List Char) : Option (Nat × List Char) :=
  match cs with
  | a :: b :: rest =>
    if a.isDigit && b.isDigit then
      match rest with
      | ':' :: rest2 => some (dval a * 10 + dval b, rest2)
      | _ => none
    else if a.isDigit && b = ':' then some (dval a, rest)
    else none
  | _ => none

def readMins (cs : List Char) : Option (Nat × List Char) :=
  match cs with
  | a :: b :: rest =>
    if a.isDigit && b.isDigit then some (dval a * 10 + dval b, rest) else none
  | _ => none

def readPeriod (cs : List Char) : Option (Bool × List Char) :=
  match cs with
  | a :: b :: rest =>
    if jsToLower a = 'a' && jsToLower b = 'm' then some (false, rest)
    else if jsToLower a = 'p' && jsToLower b = 'm' then some (true, rest)
    else none
  | _ => none

/-- Full match of the time regex: hour, minutes, `isPM`, captured suffix. -/
def match12 (t : String) : Option (Nat × Nat × Bool × String) :=
  match readHour t.data with
  | none => none
  | some (h, r1) =>
    match readMins r1 with
    | none => none
    | some (mm, r2) =>
      match readPeriod (r2.dropWhile isWS) with
      | none => none
      | some (isPM, r3) =>
        some (h, mm, isPM, ⟨r3.takeWhile (fun c => c ≠ '\n' ∧ c ≠ '\r')⟩)

/-- `advanceTimeString(timeStr, minutes)`.  The `!timeStr` guard returns
`null`/`""` unchanged; an unrecognized prefix returns the input. -/
def advanceTimeString (t? : Option String) (minutes : Nat) : Option String :=
  match t? with
  | none => none
  | some t =>
    if t = "" then some ""
    else
      match match12 t with
      | none => some t
      | some (h, mm, isPM, rest) =>
        let hours := if isPM && h ≠ 12 then h + 12 else if !isPM && h = 12 then 0 else h
        let m2 := mm + minutes
        let hours2 := (hours + m2 / 60) % 24
        let mins2 := m2 % 60
        let per := if 12 ≤ hours2 then "PM" else "AM"
        let h12 := if hours2 % 12 = 0 then 12 else hours2 % 12
        some (toString h12 ++ ":" ++ pad2 mins2 ++ " " ++ per ++ rest)

-- ── Block parser (`parseTrackerBlock`, src/index.js:571-618) ──────────

def trackerOpen : List Char := "[tracker]".data
def trackerClose : List Char := "[/tracker]".data

/-- Lazy, case-insensitive match of `openT ... closeT`:
returns the block start index and the content length. -/
def tagMatch (openT closeT : List Char) (cs : List Char) : Option (Nat × Nat) :=
  let lows := cs.map jsToLower
  match subIdx openT lows with
  | none => none
  | some i =>
    match subIdx closeT (lows.drop (i + openT.length)) with
    | none => none
    | some j => some (i, j)

/-- `/^characters\s*:/i.test(line)` on an already-trimmed line. -/
def isCharsHeader (line : List Char) : Bool :=
  let l := line.map jsToLower
  hasPre "characters".data l &&
    match (l.drop 10).dropWhile isWS with
    | ':' :: _ => true
    | _ => false

def startsDash : List Char → Bool
  | '-' :: _ => true
  | _ => false

/-- One `- name: ... | outfit: ...` entry.  `cs` is the trimmed line,
known to start with `-`. -/
def parseCharLine (cs : List Char) : CharState :=
  let parts := (splitCh '|' (trimL (cs.drop 1))).map trimL
  parts.foldl
    (fun ch part =>
      match chIdx ':' part with
      | none => ch
      | some i =>
        let k : String := ⟨(trimL (part.take i)).map jsToLower⟩
        let v : String := ⟨trimL (part.drop (i + 1))⟩
        if k = "name" then { ch with name := v }
        else if k = "outfit" then { ch with outfit := v }
        else if k = "state" then { ch with state := v }
        else if k = "position" then { ch with position := v }
        else ch)
    emptyChar

/-- One iteration of the line loop.  The state is the record under
construction plus the `inChars` flag.  Blank lines are skipped by the
`if (!line) continue` of the source before anything else happens. -/
def parseLine (st : TrackerState × Bool) (rawLine : List Char) : TrackerState × Bool :=
  let res := st.1
  let inChars := st.2
  let line := trimL rawLine
  if line.isEmpty then st
  else if isCharsHeader line then (res, true)
  else if inChars && startsDash line then
    let ch := parseCharLine line
    (if ch.name ≠ "" then { res with characters := res.characters ++ [ch] } else res, inChars)
  else
    -- Here either the line does not start with `-` (the source sets
    -- `inChars = false`) or it does but `inChars` is already `false`
    -- (the source leaves it `false`); both cases yield `false`.
    let res' :=
      match chIdx ':' line with
      | none => res
      | some i =>
        let key : String := ⟨(trimL (line.take i)).map jsToLower⟩
        let v : String := ⟨trimL (line.drop (i + 1))⟩
        if key = "time" then { res with time := some v }
        else if key = "location" then { res with location := some v }
        else if key = "weather" then { res with weather := some v }
        else if key = "heart" then { res with heart := some (.str v) }
        else res
    (res', false)

/-- `parseTrackerBlock(text)`. -/
def parseTrackerBlock (text : String) : Option TrackerState :=
  match tagMatch trackerOpen trackerClose text.data with
  | none => none
  | some (i, j) =>
    let inner := (text.data.drop (i + 9)).take j
    some ((splitCh '\n' inner).foldl parseLine (emptyTracker, false)).1

/-- `text.replace(/\[TRACKER\][\s\S]*?\[\/TRACKER\]/gi, '')`: the global
replace removes successive non-overlapping lazy matches; the fuel equals
the text length, which bounds the number of matches. -/
def stripBlocksAux : Nat → List Char → List Char
  | 0, cs => cs
  | fuel + 1, cs =>
    match tagMatch trackerOpen trackerClose cs with
    | none => cs
    | some (i, j) => cs.take i ++ stripBlocksAux fuel (cs.drop (i + 9 + j + 10))

/-- `msg.mes.replace(/\[TRACKER\]...\[\/TRACKER\]/gi, '').trim()`. -/
def stripTracker (s : String) : String :=
  ⟨trimL (stripBlocksAux s.data.length s.data)⟩

/-- `(msg.mes || '').match(/\[TRACKER\]/i)`: bare start-tag test. -/
def hasStartTag (s : String) : Bool :=
  (subIdx trackerOpen (s.data.map jsToLower)).isSome

-- ── Legacy importer (`convertSTTrackerToTT`, src/index.js:625-660) ────

/-- A per-character detail object of the SillyTavern-Tracker format.
Only the keys read by the converter are modelled; absent keys are `none`. -/
structure STCharDetail where
  Outfit : Option String
  outfit : Option String
  StateOfDress : Option String
  State : Option String
  state : Option String
  PostureAndInteraction : Option String
  Position : Option String
  position : Option String
deriving DecidableEq

def emptyDetail : STCharDetail := ⟨none, none, none, none, none, none, none, none⟩

/-- A structured SillyTavern-Tracker source object.  The capitalized and
lower-cased key pairs the converter reads are modelled, together with the
`Heart`/`heart` keys such an object may carry (the converter never reads
them).  `Characters` is the per-name detail lookup, as an association
list. -/
structure STData where
  Time : Option String
  time : Option String
  Location : Option String
  location : Option String
  Weather : Option String
  weather : Option String
  Heart : Option Int
  heart : Option Int
  CharactersPresent : Option (List String)
  charactersPresent : Option (List String)
  Characters : Option (List (String × STCharDetail))
  characters : Option (List (String × STCharDetail))
deriving DecidableEq

/-- The `Array.isArray(stData.CharactersPresent) ? ... : ...` chain. -/
def convCharNames (st : STData) : List String :=
  match st.CharactersPresent with
  | some ns => ns
  | none =>
    match st.charactersPresent with
    | some ns => ns
    | none => []

/-- The `stData.Characters`-or-`stData.characters` detail lookup object. -/
def convDetails (st : STData) : List (String × STCharDetail) :=
  match st.Characters with
  | some d => d
  | none =>
    match st.characters with
    | some d => d
    | none => []

/-- The `for (const name of charNames)` loop of the converter. -/
def convChars (st : STData) : List CharState :=
  (convCharNames st).map (fun n =>
    let d := (((convDetails st).find? (fun p => p.1 = n)).map Prod.snd).getD emptyDetail
    { name := n
      outfit := jsSChain [d.Outfit, d.outfit]
      state := jsSChain [d.StateOfDress, d.State, d.state]
      position := jsSChain [d.PostureAndInteraction, d.Position, d.position] : CharState })

/-- `convertSTTrackerToTT(stData)`. -/
def convertSTTrackerToTT (st : STData) : Option TrackerState :=
  let t := jsOrS st.Time st.time
  let l := jsOrS st.Location st.location
  let w := jsOrS st.Weather st.weather
  if t.isSome || l.isSome || w.isSome || !(convChars st).isEmpty then
    some { time := t, location := l, weather := w, heart := none, characters := convChars st }
  else none

def stOpen : List Char := "<tracker>".data
def stClose : List Char := "</tracker>".data

-- ── Messages, settings, ledger ────────────────────────────────────────

/-- A chat message.  `tracker` is the SillyTavern-Tracker side channel
(`none` models an absent or empty `msg.tracker` object); `tt` is this
engine's ledger entry `msg.extra.tt_tracker`. -/
structure Message where
  is_user : Bool
  mes : String
  tracker : Option STData
  tt : Option TrackerState
deriving DecidableEq

/-- Process-wide settings read by the engine. -/
structure Settings where
  enabled : Bool
  heartPoints : Int
  heartSensitivity : Int
deriving DecidableEq

/-- `(Number(s.heartSensitivity) || 5) * 500`. -/
def maxShiftOf (s : Settings) : Int :=
  (if s.heartSensitivity = 0 then 5 else s.heartSensitivity) * 500

/-- `tryImportSTTracker(msg)`.  `jp` is the `JSON.parse` oracle: `none`
models a thrown syntax error or a non-object payload. -/
def tryImportSTTracker (jp : String → Option STData) (msg : Message) : Option TrackerState :=
  match msg.tracker with
  | some st => convertSTTrackerToTT st
  | none =>
    match tagMatch stOpen stClose msg.mes.data with
    | some (i, j) =>
      match jp ⟨trimL ((msg.mes.data.drop (i + 9)).take j)⟩ with
      | some st => convertSTTrackerToTT st
      | none => none
    | none => none

/-- `getMostRecentTracker(chat, beforeMesId)`: backward scan from
`beforeMesId - 1` for the first stored `tt_tracker`. -/
def getMostRecentTracker (chat : List Message) : Nat → Option TrackerState
  | 0 => none
  | i + 1 =>
    match (chat[i]?).bind Message.tt with
    | some t => some t
    | none => getMostRecentTracker chat i

/-- The `ctx.chat.slice(0, mesId).reverse().find(m => m.extra?.tt_tracker)`
lookup used by `regenTracker` and `populateAllMessages`. -/
def findPrevTracked (chat : List Message) (mesId : Nat) : Option Message :=
  ((chat.take mesId).reverse).find? (fun m => m.tt.isSome)

/-- `parseInt(prevMsg?.extra?.tt_tracker?.heart, 10) || 0`. -/
def prevHeartOf (chat : List Message) (mesId : Nat) : Int :=
  jsOrInt (((findPrevTracked chat mesId).bind Message.tt).bind
    (fun t => t.heart.bind heartParse)) 0

-- ── Reconciliation: retroactive user-message inheritance ──────────────
-- (`populatePrecedingUserMessages`, src/index.js:877-901)

/-- `{ ...tracker, time: advanceTimeString(tracker.time, nudge) }`: the
inherited copy with its time nudged forward. -/
def advTracker (nudges : Nat → Nat) (i : Nat) (tr : TrackerState) : TrackerState :=
  { tr with time := advanceTimeString tr.time (nudges i) }

/-- The backward loop body: `popPrecAux nudges (i+1) chat` processes index
`i` and recurses downward; `popPrecAux nudges 0 chat` is the exhausted
loop.  `nudges i` is the random 1-3 minute nudge drawn at index `i`
(modelled as an oracle). -/
def popPrecAux (nudges : Nat → Nat) : Nat → List Message → List Message
  | 0, chat => chat
  | i + 1, chat =>
    match chat[i]? with
    | none => chat
    | some msg =>
      if !msg.is_user then chat
      else if msg.tt.isSome then popPrecAux nudges i chat
      else
        match getMostRecentTracker chat i with
        | some tr =>
          popPrecAux nudges i (chat.set i { msg with tt := some (advTracker nudges i tr) })
        | none => popPrecAux nudges i chat

/-- `populatePrecedingUserMessages(aiMesId)`. -/
def populatePrecedingUserMessages (nudges : Nat → Nat) (chat : List Message)
    (aiMesId : Nat) : List Message :=
  popPrecAux nudges aiMesId chat

-- ── Reconciliation: per-message processing ────────────────────────────
-- (`processMessage`, src/index.js:907-949)

/-- The heart-clamp step shared by `processMessage`, `regenTracker` and
`populateAllMessages`: when the parsed record carries a heart value it is
clamped against the running value and the running value is updated. -/
def clampStep (data : TrackerState) (s : Settings) : TrackerState × Settings :=
  match data.heart with
  | some h =>
    let c := clampHeartH h s.heartPoints (maxShiftOf s)
    ({ data with heart := some (.num c) }, { s with heartPoints := c })
  | none => (data, s)

/-- `processMessage(mesId)`: parse-from-text first, legacy import second;
both success paths store the record and backfill preceding user messages. -/
def processMessage (nudges : Nat → Nat) (jp : String → Option STData)
    (chat : List Message) (s : Settings) (mesId : Nat) :
    List Message × Settings :=
  if !s.enabled then (chat, s)
  else
    match chat[mesId]? with
    | none => (chat, s)
    | some msg =>
      if msg.is_user then (chat, s)
      else
        match parseTrackerBlock msg.mes with
        | some data =>
          let (data', s') := clampStep data s
          let chat' := chat.set mesId { msg with mes := stripTracker msg.mes, tt := some data' }
          (populatePrecedingUserMessages nudges chat' mesId, s')
        | none =>
          match tryImportSTTracker jp msg with
          | some imported =>
            let chat' := chat.set mesId { msg with tt := some imported }
            (populatePrecedingUserMessages nudges chat' mesId, s)
          | none => (chat, s)

-- ── Reconciliation: explicit regenerate ───────────────────────────────
-- (`regenTracker`, src/index.js:962-1048)

/-- `regenTracker(mesId)`.  `response` is the settled
`generateQuietPrompt` promise: `none` models a rejection, which the
`catch` turns into "no state change".  On a user-authored message the
produced heart is overwritten with `prevHeart`; on an assistant message
it is clamped and drives the running value. -/
def regenTracker (chat : List Message) (s : Settings) (mesId : Nat)
    (response : Option String) : List Message × Settings :=
  match chat[mesId]? with
  | none => (chat, s)
  | some msg =>
    let prevHeart := prevHeartOf chat mesId
    match response with
    | none => (chat, s)
    | some r =>
      match parseTrackerBlock r with
      | none => (chat, s)
      | some data =>
        if msg.is_user then
          let data' := { data with heart := some (.num prevHeart) }
          (chat.set mesId { msg with tt := some data' }, s)
        else
          let (data', s') := clampStep data s
          (chat.set mesId { msg with tt := some data' }, s')

-- ── Reconciliation: bulk populate ─────────────────────────────────────
-- (`populateAllMessages`, src/index.js:1196-1335)

/-- The sequential pass over the assistant-message indices.  `gen` is the
generation oracle indexed by the number of generation calls issued so far
(`none` = rejected promise, caught and logged).  Returns the chat, the
settings and the total number of generation attempts. -/
def popAllLoop (jp : String → Option STData) (gen : Nat → Option String) :
    List Nat → List Message → Settings → Nat → List Message × Settings × Nat
  | [], chat, s, cnt => (chat, s, cnt)
  | idx :: rest, chat, s, cnt =>
    match chat[idx]? with
    | none => popAllLoop jp gen rest chat s cnt
    | some msg =>
      if msg.tt.isSome then
        let chat' :=
          if hasStartTag msg.mes then chat.set idx { msg with mes := stripTracker msg.mes }
          else chat
        popAllLoop jp gen rest chat' s cnt
      else
        match parseTrackerBlock msg.mes with
        | some ex =>
          let (ex', s') := clampStep ex s
          let chat' := chat.set idx { msg with mes := stripTracker msg.mes, tt := some ex' }
          popAllLoop jp gen rest chat' s' cnt
        | none =>
          match tryImportSTTracker jp msg with
          | some imp =>
            popAllLoop jp gen rest (chat.set idx { msg with tt := some imp }) s cnt
          | none =>
            match gen cnt with
            | none => popAllLoop jp gen rest chat s (cnt + 1)
            | some r =>
              match parseTrackerBlock r with
              | none => popAllLoop jp gen rest chat s (cnt + 1)
              | some data =>
                let (data', s') := clampStep data s
                popAllLoop jp gen rest (chat.set idx { msg with tt := some data' }) s' (cnt + 1)

/-- The second sweep: every user message still lacking state inherits via
`getMostRecentTracker` (a plain copy, no time nudge here). -/
def userSweep : List Nat → List Message → List Message
  | [], chat => chat
  | idx :: rest, chat =>
    match chat[idx]? with
    | some msg =>
      if msg.is_user && msg.tt.isNone then
        match getMostRecentTracker chat idx with
        | some inh => userSweep rest (chat.set idx { msg with tt := some inh })
        | none => userSweep rest chat
      else userSweep rest chat
    | none => userSweep rest chat

/-- `populateAllMessages()` (one run; the `isPopulating` busy flag only
guards against concurrent runs). -/
def populateAllMessages (jp : String → Option STData) (gen : Nat → Option String)
    (chat : List Message) (s : Settings) : List Message × Settings × Nat :=
  if chat.isEmpty then (chat, s, 0)
  else
    let aiIdxs := (List.range chat.length).filter (fun i =>
      match chat[i]? with
      | some m => !m.is_user
      | none => false)
    let res := popAllLoop jp gen aiIdxs chat s 0
    (userSweep (List.range res.1.length) res.1, res.2)

-- ── Spec-side definitions and concrete example inputs ─────────────────

/-- The "no information" record of §3 of the spec: all of
time/location/weather null and zero characters. -/
def noInfo (t : TrackerState) : Prop :=
  t.time = none ∧ t.location = none ∧ t.weather = none ∧ t.characters = []

/-- Modelled from the spec: "Converts to a 24-hour internal
representation" for a parsed `H:MM AM/PM` prefix. -/
def to24Spec (h : Nat) (isPM : Bool) : Nat :=
  if isPM then (if h = 12 then 12 else h + 12) else (if h = 12 then 0 else h)

/-- Modelled from the spec: render minutes-since-midnight "back to
12-hour `H:MM AM/PM` form with zero-padded minutes". -/
def render12Spec (total : Nat) : String :=
  let hh := total / 60
  let m2 := total % 60
  let h12 := if hh % 12 = 0 then 12 else hh % 12
  toString h12 ++ ":" ++ pad2 m2 ++ " " ++ (if 12 ≤ hh then "PM" else "AM")

/-- An assistant message whose text is an empty tracker block. -/
def msgC3 : Message := ⟨false, "[TRACKER][/TRACKER]", none, none⟩

/-- Default-like settings: enabled, heart 0, sensitivity 5. -/
def sDef : Settings := ⟨true, 0, 5⟩

/-- A legacy source object with only a (non-empty) `Time` key. -/
def stTimeOnly : STData :=
  ⟨some "T", none, none, none, none, none, none, none, none, none, none, none⟩

/-- A legacy source object carrying `Time`, `Heart` and `heart` keys. -/
def stWithHeart : STData :=
  ⟨some "10:00 AM", none, none, none, none, none, some 15000, some 15000,
    none, none, none, none⟩

/-- A stored tracker whose heart is the integer 500. -/
def trHeart500 : TrackerState := ⟨none, none, none, some (.num 500), []⟩

/-- Chat for the regenerate example: an assistant message holding
`trHeart500`, then a user message. -/
def chatRegen : List Message :=
  [⟨false, "", none, some trHeart500⟩, ⟨true, "hi", none, none⟩]

/-- A generated response whose heart (9999) must be discarded on a
user-authored message. -/
def respRegen : String := "[TRACKER]\nheart: 9999\n[/TRACKER]"

/-- Chat for the bulk-populate example: two plain assistant messages. -/
def chatBulk : List Message :=
  [⟨false, "hello", none, none⟩, ⟨false, "world", none, none⟩]

/-- A tracker with a time, inherited by preceding user messages. -/
def trNine : TrackerState := ⟨some "9:00 AM", none, none, some (.num 5), []⟩

/-- Chat for the inheritance example: assistant (tracked), user
(untracked), user (tracked), assistant. -/
def chatInh : List Message :=
  [⟨false, "", none, some trNine⟩,
   ⟨true, "a", none, none⟩,
   ⟨true, "b", none, some trHeart500⟩,
   ⟨false, "c", none, none⟩]

-- ── Helper lemmas ─────────────────────────────────────────────────────

lemma lt_of_getElem?_some {α : Type} {l : List α} {i : Nat} {a : α}
    (h : l[i]? = some a) : i < l.length := by
  by_contra hn
  rw [List.getElem?_eq_none (by omega)] at h
  cases h

lemma set_getElem?_self {α : Type} {l : List α} {i : Nat} {a b : α}
    (h : l[i]? = some b) : (l.set i a)[i]? = some a := by
  simp [List.getElem?_set_self, lt_of_getElem?_some h]

/-- The `slice(0, mesId).reverse().find(...)` lookup agrees with the
downward scan of `getMostRecentTracker`. -/
lemma findPrev_eq_getMostRecent (chat : List Message) :
    ∀ i, (findPrevTracked chat i).bind Message.tt = getMostRecentTracker chat i := by
  intro i
  induction i with
  | zero => rfl
  | succ i ih =>
    unfold findPrevTracked getMostRecentTracker
    rw [List.take_succ]
    cases hm : chat[i]? with
    | none =>
      simp only [Option.toList_none, List.append_nil]
      rw [show ((chat.take i).reverse.find? (fun m => m.tt.isSome)).bind Message.tt
            = (findPrevTracked chat i).bind Message.tt from rfl, ih]
      rfl
    | some m =>
      simp only [Option.toList_some, List.reverse_append, List.reverse_cons,
        List.reverse_nil, List.nil_append, List.cons_append, List.find?]
      cases htt : m.tt with
      | some t => simp [List.find?_cons, htt]
      | none =>
        simp only [List.find?_cons, htt, Option.isSome_none, Bool.false_eq_true,
          if_false, cond_false]
        rw [show ((chat.take i).reverse.find? (fun m => m.tt.isSome)).bind Message.tt
              = (findPrevTracked chat i).bind Message.tt from rfl, ih]
        simp [htt]

lemma convert_fields (st : STData) (t : TrackerState)
    (h : convertSTTrackerToTT st = some t) :
    t.time = jsOrS st.Time st.time ∧ t.location = jsOrS st.Location st.location ∧
      t.weather = jsOrS st.Weather st.weather ∧ t.heart = none := by
  unfold convertSTTrackerToTT at h
  dsimp only at h
  split at h
  · injection h with h'
    subst h'
    exact ⟨rfl, rfl, rfl, rfl⟩
  · exact absurd h (by simp)

lemma advArith (H M : Nat) :
    ((H * 60 + M) % 1440) / 60 = (H + M / 60) % 24 ∧
      ((H * 60 + M) % 1440) % 60 = M % 60 := by omega

-- ── C8 ────────────────────────────────────────────────────────────────

/-- C8: `parseTrackerBlock` applied to the documented example text yields
exactly time `"10:30 AM"`, null location and weather, heart as the
unconverted string `"15000"`, and the single character Alice with outfit
`"Blue dress"` and empty state and position. -/
theorem C8_parse_example :
    parseTrackerBlock "[TRACKER]\ntime: 10:30 AM\nheart: 15000\ncharacters:\n- name: Alice | outfit: Blue dress\n[/TRACKER]"
      = some { time := some "10:30 AM", location := none, weather := none,
               heart := some (.str "15000"),
               characters := [⟨"Alice", "Blue dress", "", ""⟩] } := by rfl

-- ── C1 ────────────────────────────────────────────────────────────────

/-- C1 (counterexample): for the out-of-range previous value 100000 the
clamp returns 97500, which lies above `min HEART_MAX (prev + shift)`, so
the claimed window does not hold for every previous value. -/
theorem C1_counterexample :
    ¬ (max 0 ((100000 : Int) - 2500) ≤ clampHeart (some 0) (some 100000) (some 2500) ∧
        clampHeart (some 0) (some 100000) (some 2500) ≤ min 69999 (100000 + 2500)) := by
  decide

/-- C1 (amended): for every raw input `x` (numeric or not), every previous
value already inside `[0, HEART_MAX]` and every positive shift,
`clampHeart` returns a value in the window
`[max 0 (prev - shift), min 69999 (prev + shift)]`. -/
theorem C1_clamp_window (x : Option Int) (prev shift : Int)
    (h0 : 0 ≤ prev) (h1 : prev ≤ 69999) (h2 : 1 ≤ shift) :
    max 0 (prev - shift) ≤ clampHeart x (some prev) (some shift) ∧
      clampHeart x (some prev) (some shift) ≤ min 69999 (prev + shift) := by
  rcases x with _ | v <;>
    by_cases hp0 : prev = 0 <;>
      simp [clampHeart, jsOrInt, hp0, (by omega : shift ≠ 0)] <;> omega

/-- C1 (witness): the window bound instantiated at a concrete
out-of-range raw value. -/
theorem C1_witness :
    (0 : Int) ≤ 5000 ∧ (5000 : Int) ≤ 69999 ∧ (1 : Int) ≤ 2500 ∧
      (max 0 ((5000 : Int) - 2500) ≤ clampHeart (some 99999999) (some 5000) (some 2500) ∧
        clampHeart (some 99999999) (some 5000) (some 2500) ≤ min 69999 (5000 + 2500)) :=
  ⟨by norm_num, by norm_num, by norm_num,
    C1_clamp_window (some 99999999) 5000 2500 (by norm_num) (by norm_num) (by norm_num)⟩

-- ── C9 ────────────────────────────────────────────────────────────────

/-- C9 (counterexample): a negative `maxShift` is clamped up to 1, while a
non-numeric `maxShift` falls back to 2500 — not the same default. -/
theorem C9_counterexample :
    clampHeart (some 10000) (some 0) (some (-5)) = 1 ∧
      clampHeart (some 10000) (some 0) none = 2500 ∧ ((1 : Int) ≠ 2500) := by
  decide

/-- C9 (amended): non-numeric `rawValue` yields the previous value;
non-numeric `previousValue` is treated as 0; a zero or non-numeric
`maxShift` falls back to the default 2500, but a negative `maxShift` is
clamped up to 1 instead of the default. -/
theorem C9_coercions :
    (∀ (p : Int) (sh : Option Int), clampHeart none (some p) sh = p) ∧
    (∀ (x sh : Option Int), clampHeart x none sh = clampHeart x (some 0) sh) ∧
    (∀ (x p : Option Int), clampHeart x p (some 0) = clampHeart x p none) ∧
    (∀ (x p : Option Int) (sh : Int), sh < 0 →
      clampHeart x p (some sh) = clampHeart x p (some 1)) := by
  refine ⟨?_, ?_, ?_, ?_⟩
  · intro p sh
    by_cases hp0 : p = 0 <;> simp [clampHeart, jsOrInt, hp0]
  · intro x sh; rfl
  · intro x p; rfl
  · intro x p sh hsh
    have h2 : max (1 : Int) sh = 1 := by omega
    simp [clampHeart, jsOrInt, show sh ≠ 0 by omega, h2]

/-- C9 (witness): the coercion laws at concrete inputs. -/
theorem C9_witness :
    clampHeart none (some 7) none = 7 ∧
      clampHeart (some 5) none (some 3) = clampHeart (some 5) (some 0) (some 3) ∧
      clampHeart (some 5) (some 8) (some 0) = clampHeart (some 5) (some 8) none ∧
      clampHeart (some 5) (some 3) (some (-2)) = clampHeart (some 5) (some 3) (some 1) :=
  ⟨C9_coercions.1 7 none, C9_coercions.2.1 (some 5) (some 3),
    C9_coercions.2.2.1 (some 5) (some 8),
    C9_coercions.2.2.2 (some 5) (some 3) (-2) (by norm_num)⟩

-- ── C4 ────────────────────────────────────────────────────────────────

/-- C4 (counterexample): a blank line inside the characters section does
not end character-collection mode — the dash line after the blank line is
still collected, so the parse yields both A and B. -/
theorem C4_counterexample :
    parseTrackerBlock "[TRACKER]\ncharacters:\n- name: A\n\n- name: B\n[/TRACKER]"
      = some { time := none, location := none, weather := none, heart := none,
               characters := [⟨"A", "", "", ""⟩, ⟨"B", "", "", ""⟩] } := by rfl

/-- C4 (amended): blank lines are skipped without changing the parser
state; the first non-blank line that is neither a characters header nor
begins with `-` ends character-collection mode. -/
theorem C4_mode_transition (res : TrackerState) (b : Bool) (rawLine : List Char) :
    (trimL rawLine = [] → parseLine (res, b) rawLine = (res, b)) ∧
    (trimL rawLine ≠ [] → isCharsHeader (trimL rawLine) = false →
      startsDash (trimL rawLine) = false → (parseLine (res, b) rawLine).2 = false) := by
  constructor
  · intro h; simp [parseLine, h]
  · intro h1 h2 h3
    simp [parseLine, h1, h2, h3]

/-- C4 (witness): a `key: value` line ends character mode. -/
theorem C4_witness : (parseLine (emptyTracker, true) "x: y".data).2 = false :=
  (C4_mode_transition emptyTracker true "x: y".data).2 (by decide) (by decide) (by decide)

-- ── C3 ────────────────────────────────────────────────────────────────

/-- C3 (counterexample): rendering/processing an assistant message whose
text is an empty tracker block stores a record with time, location and
weather all null and zero characters — a "no information" record is
written into the ledger by the parse-from-text path. -/
theorem C3_counterexample :
    ((processMessage (fun _ => 1) (fun _ => none) [msgC3] sDef 0).1[0]?).bind Message.tt
        = some emptyTracker ∧ noInfo emptyTracker := by
  constructor
  · rfl
  · exact ⟨rfl, rfl, rfl, rfl⟩

/-- C3 (amended): the legacy importer respects the invariant — every
record `convertSTTrackerToTT` produces has at least one of time, location,
weather or a character, so the import paths never store a "no
information" record; the parse-from-text paths do not check it. -/
theorem C3_import_never_noInfo (st : STData) (t : TrackerState)
    (h : convertSTTrackerToTT st = some t) : ¬ noInfo t := by
  unfold convertSTTrackerToTT at h
  dsimp only at h
  split at h
  · injection h with h'
    subst h'
    rename_i hc
    intro hni
    obtain ⟨h1, h2, h3, h4⟩ := hni
    simp only at h1 h2 h3 h4
    rw [h1, h2, h3, h4] at hc
    simp at hc
  · exact absurd h (by simp)

/-- C3 (witness): the import invariant at a concrete source object. -/
theorem C3_witness : ¬ noInfo ⟨some "T", none, none, none, []⟩ :=
  C3_import_never_noInfo stTimeOnly ⟨some "T", none, none, none, []⟩ rfl

-- ── C5 ────────────────────────────────────────────────────────────────

/-- C5 (counterexample): the `(.*)` capture of the time regex stops at a
newline, so for a suffix containing one the text after the newline is
dropped rather than re-appended verbatim. -/
theorem C5_counterexample :
    advanceTimeString (some "1:00 AM; May\n(Tue)") 2 = some "1:02 AM; May" ∧
      ("1:02 AM; May" : String) ≠ "1:02 AM" ++ "; May\n(Tue)" :=
  ⟨by rfl, by decide⟩

/-- C5 (amended): whenever the leading `H:MM AM/PM` regex matches,
`advanceTimeString` converts the prefix to 24-hour form, adds the
minutes, wraps modulo 24 hours (1440 minutes), renders the result back in
12-hour form with zero-padded minutes, and re-appends the captured
suffix, which extends only to the end of the first line. -/
theorem C5_advance_spec (t : String) (minutes h mm : Nat) (isPM : Bool) (rest : String)
    (hm : match12 t = some (h, mm, isPM, rest)) :
    advanceTimeString (some t) minutes
      = some (render12Spec ((to24Spec h isPM * 60 + mm + minutes) % 1440) ++ rest) := by
  have ht : t ≠ "" := by
    intro h0; subst h0; simp [match12, readHour] at hm
  have hconv : (if isPM && h ≠ 12 then h + 12 else if !isPM && h = 12 then 0 else h)
      = to24Spec h isPM := by
    cases isPM <;> by_cases h12 : h = 12 <;> simp [to24Spec, h12]
  have h1 := (advArith (to24Spec h isPM) (mm + minutes)).1
  have h2 := (advArith (to24Spec h isPM) (mm + minutes)).2
  unfold advanceTimeString
  simp only [ht, if_false, hm]
  rw [hconv]
  simp only [render12Spec]
  rw [show to24Spec h isPM * 60 + mm + minutes
        = to24Spec h isPM * 60 + (mm + minutes) by omega]
  rw [h1, h2]

/-- C5 (witness): the documented midnight-crossing example. -/
theorem C5_witness :
    advanceTimeString (some "11:59 PM; 5/1/2040 (Tuesday)") 2
      = some "12:01 AM; 5/1/2040 (Tuesday)" :=
  (C5_advance_spec "11:59 PM; 5/1/2040 (Tuesday)" 2 11 59 true
    "; 5/1/2040 (Tuesday)" rfl).trans (by rfl)

-- ── C7 ────────────────────────────────────────────────────────────────

/-- C7 (counterexample): a source object carrying both `Heart` and
`heart` keys converts to a record whose heart is still null — the
importer never populates heart from any source key. -/
theorem C7_counterexample :
    stWithHeart.Heart = some 15000 ∧ stWithHeart.heart = some 15000 ∧
      convertSTTrackerToTT stWithHeart
        = some ⟨some "10:00 AM", none, none, none, []⟩ :=
  ⟨rfl, rfl, rfl⟩

/-- C7 (amended): time, location and weather are each populated from the
capitalized source key or, when it is absent, from the lower-cased one;
heart is never imported — the converted record's heart is always null. -/
theorem C7_alias_fields :
    (∀ (st : STData) (t : TrackerState) (v : String),
      convertSTTrackerToTT st = some t → st.Time = some v → v ≠ "" → t.time = some v) ∧
    (∀ (st : STData) (t : TrackerState) (v : String),
      convertSTTrackerToTT st = some t → st.Time = none → st.time = some v → v ≠ "" →
        t.time = some v) ∧
    (∀ (st : STData) (t : TrackerState) (v : String),
      convertSTTrackerToTT st = some t → st.Location = some v → v ≠ "" →
        t.location = some v) ∧
    (∀ (st : STData) (t : TrackerState) (v : String),
      convertSTTrackerToTT st = some t → st.Location = none → st.location = some v →
        v ≠ "" → t.location = some v) ∧
    (∀ (st : STData) (t : TrackerState) (v : String),
      convertSTTrackerToTT st = some t → st.Weather = some v → v ≠ "" →
        t.weather = some v) ∧
    (∀ (st : STData) (t : TrackerState) (v : String),
      convertSTTrackerToTT st = some t → st.Weather = none → st.weather = some v →
        v ≠ "" → t.weather = some v) ∧
    (∀ (st : STData) (t : TrackerState),
      convertSTTrackerToTT st = some t → t.heart = none) := by
  refine ⟨?_, ?_, ?_, ?_, ?_, ?_, ?_⟩
  · intro st t v h hT hv
    rw [(convert_fields st t h).1, hT]
    simp [jsOrS, truthyS, hv]
  · intro st t v h hT ht hv
    rw [(convert_fields st t h).1, hT, ht]
    simp [jsOrS, truthyS, hv]
  · intro st t v h hT hv
    rw [(convert_fields st t h).2.1, hT]
    simp [jsOrS, truthyS, hv]
  · intro st t v h hT ht hv
    rw [(convert_fields st t h).2.1, hT, ht]
    simp [jsOrS, truthyS, hv]
  · intro st t v h hT hv
    rw [(convert_fields st t h).2.2.1, hT]
    simp [jsOrS, truthyS, hv]
  · intro st t v h hT ht hv
    rw [(convert_fields st t h).2.2.1, hT, ht]
    simp [jsOrS, truthyS, hv]
  · intro st t h
    exact (convert_fields st t h).2.2.2

/-- C7 (witness): the alias and heart laws at a concrete source object. -/
theorem C7_witness :
    (⟨some "10:00 AM", none, none, none, []⟩ : TrackerState).time = some "10:00 AM" ∧
      (⟨some "10:00 AM", none, none, none, []⟩ : TrackerState).heart = none :=
  ⟨C7_alias_fields.1 stWithHeart ⟨some "10:00 AM", none, none, none, []⟩
      "10:00 AM" rfl rfl (by decide),
    C7_alias_fields.2.2.2.2.2.2 stWithHeart ⟨some "10:00 AM", none, none, none, []⟩ rfl⟩

-- ── C2 ────────────────────────────────────────────────────────────────

lemma popAllLoop_reject (jp : String → Option STData) (idxs : List Nat)
    (chat : List Message) (s : Settings) (cnt : Nat)
    (h : ∀ i ∈ idxs, ∃ m, chat[i]? = some m ∧ m.tt = none ∧
      parseTrackerBlock m.mes = none ∧ tryImportSTTracker jp m = none) :
    popAllLoop jp (fun _ => none) idxs chat s cnt = (chat, s, cnt + idxs.length) := by
  induction idxs generalizing cnt with
  | nil => simp [popAllLoop]
  | cons i rest ih =>
    obtain ⟨m, hm, ht, hp, hi⟩ := h i (List.mem_cons_self i rest)
    rw [popAllLoop, hm]
    simp only [ht, hp, hi, Option.isSome_none, Bool.false_eq_true, if_false]
    rw [ih _ (fun j hj => h j (List.mem_cons_of_mem i hj))]
    simp only [List.length_cons]
    congr 2
    omega

lemma userSweep_nouser (idxs : List Nat) (chat : List Message)
    (h : ∀ m ∈ chat, m.is_user = false) : userSweep idxs chat = chat := by
  induction idxs with
  | nil => rfl
  | cons i rest ih =>
    cases hm : chat[i]? with
    | none => rw [userSweep, hm]; exact ih
    | some m =>
      rw [userSweep, hm]
      simp only [h m (List.getElem?_mem hm), Bool.false_and, if_false]
      exact ih

lemma aiIdxs_all (chat : List Message) (h : ∀ m ∈ chat, m.is_user = false) :
    (List.range chat.length).filter (fun i =>
      match chat[i]? with
      | some m => !m.is_user
      | none => false) = List.range chat.length := by
  apply List.filter_eq_self.mpr
  intro i hi
  have hlen : i < chat.length := List.mem_range.mp hi
  cases hm : chat[i]? with
  | none =>
    rw [List.getElem?_eq_getElem hlen] at hm
    cases hm
  | some m => simp [h m (List.getElem?_mem hm)]

/-- C2: bulk population over a chat of assistant messages with no stored
trackers, no embedded blocks and no legacy data, with a generation
capability that always rejects, performs exactly one generation attempt
per message (N in total), leaves the chat (and so every ledger entry)
unchanged, and returns normally — every rejection is caught inside the
loop. -/
theorem C2_bulk_reject (chat : List Message) (s : Settings) (jp : String → Option STData)
    (hu : ∀ m ∈ chat, m.is_user = false)
    (ht : ∀ m ∈ chat, m.tt = none)
    (hp : ∀ m ∈ chat, parseTrackerBlock m.mes = none)
    (hi : ∀ m ∈ chat, tryImportSTTracker jp m = none) :
    populateAllMessages jp (fun _ => none) chat s = (chat, s, chat.length) ∧
      ∀ m ∈ (populateAllMessages jp (fun _ => none) chat s).1, m.tt = none := by
  have hyp : ∀ i ∈ List.range chat.length, ∃ m, chat[i]? = some m ∧ m.tt = none ∧
      parseTrackerBlock m.mes = none ∧ tryImportSTTracker jp m = none := by
    intro i hi2
    have hlen : i < chat.length := List.mem_range.mp hi2
    refine ⟨chat[i], List.getElem?_eq_getElem hlen, ?_, ?_, ?_⟩
    · exact ht _ (List.getElem_mem hlen)
    · exact hp _ (List.getElem_mem hlen)
    · exact hi _ (List.getElem_mem hlen)
  have key : populateAllMessages jp (fun _ => none) chat s = (chat, s, chat.length) := by
    unfold populateAllMessages
    cases hc : chat.isEmpty
    case true =>
      simp only [if_pos rfl]
      rw [List.isEmpty_iff] at hc
      subst hc
      rfl
    case false =>
      simp only [Bool.false_eq_true, if_false]
      rw [aiIdxs_all chat hu]
      rw [popAllLoop_reject jp _ chat s 0 hyp]
      simp only
      rw [userSweep_nouser _ chat hu]
      simp [List.length_range]
  refine ⟨key, ?_⟩
  rw [key]
  exact ht

/-- C2 (witness): the bulk pass on a concrete two-message chat. -/
theorem C2_witness :
    populateAllMessages (fun _ => none) (fun _ => none) chatBulk sDef = (chatBulk, sDef, 2) :=
  (C2_bulk_reject chatBulk sDef (fun _ => none) (by decide) (by decide) (by decide) (by decide)).1

-- ── C6 ────────────────────────────────────────────────────────────────

lemma prevHeart_cases (chat : List Message) (mesId : Nat) (hprev : Int)
    (h4 : (getMostRecentTracker chat mesId = none ∧ hprev = 0) ∨
      (∃ t, getMostRecentTracker chat mesId = some t ∧ t.heart = some (.num hprev))) :
    prevHeartOf chat mesId = hprev := by
  unfold prevHeartOf
  rw [findPrev_eq_getMostRecent]
  rcases h4 with ⟨hn, h0⟩ | ⟨t, hs, hh⟩
  · rw [hn]; simp [jsOrInt, h0]
  · rw [hs]
    by_cases hz : hprev = 0 <;> simp [hh, heartParse, jsOrInt, hz]

/-- C6: when `regenTracker` runs on a user-authored message and the
generated response parses, the stored heart is forced to the heart of the
nearest preceding stored tracker (0 when none exists) regardless of the
heart the generation produced, and the settings — in particular the
running `heartPoints` — are unchanged. -/
theorem C6_regen_user_heart_lock (chat : List Message) (s : Settings) (mesId : Nat)
    (msg : Message) (r : String) (data : TrackerState) (hprev : Int)
    (h1 : chat[mesId]? = some msg) (h2 : msg.is_user = true)
    (h3 : parseTrackerBlock r = some data)
    (h4 : (getMostRecentTracker chat mesId = none ∧ hprev = 0) ∨
      (∃ t, getMostRecentTracker chat mesId = some t ∧ t.heart = some (.num hprev))) :
    (regenTracker chat s mesId (some r)).2 = s ∧
      (regenTracker chat s mesId (some r)).1[mesId]?
        = some { msg with tt := some { data with heart := some (.num hprev) } } := by
  have hph := prevHeart_cases chat mesId hprev h4
  unfold regenTracker
  rw [h1]
  simp only [h3, h2, if_true, hph]
  exact ⟨by trivial, set_getElem?_self h1⟩

/-- C6 (witness): regenerating a user message whose response proposes
heart 9999 stores the previous heart 500 instead. -/
theorem C6_witness :
    (regenTracker chatRegen sDef 1 (some respRegen)).2 = sDef ∧
      (regenTracker chatRegen sDef 1 (some respRegen)).1[1]?
        = some ⟨true, "hi", none, some ⟨none, none, none, some (.num 500), []⟩⟩ :=
  C6_regen_user_heart_lock chatRegen sDef 1 ⟨true, "hi", none, none⟩ respRegen
    ⟨none, none, none, some (.str "9999"), []⟩ 500 rfl rfl rfl
    (Or.inr ⟨trHeart500, rfl, rfl⟩)

-- ── C10 ───────────────────────────────────────────────────────────────

lemma popPrec_frame_ge (nudges : Nat → Nat) :
    ∀ (i : Nat) (chat : List Message) (j : Nat), i ≤ j →
      (popPrecAux nudges i chat)[j]? = chat[j]? := by
  intro i
  induction i with
  | zero => intro chat j _; rfl
  | succ i ih =>
    intro chat j hij
    have hij' : i ≤ j := by omega
    rw [popPrecAux]
    cases hm : chat[i]? with
    | none => rfl
    | some msg =>
      obtain ⟨mu, mmes, mtrk, mtt⟩ := msg
      cases mu with
      | false => rfl
      | true =>
        cases mtt with
        | some t => exact ih chat j hij'
        | none =>
          cases hg : getMostRecentTracker chat i with
          | none => exact ih chat j hij'
          | some tr =>
            show (popPrecAux nudges i
              (chat.set i ⟨true, mmes, mtrk, some (advTracker nudges i tr)⟩))[j]? = chat[j]?
            rw [ih _ j hij']
            exact List.getElem?_set_ne (by omega)

lemma popPrec_frame_blocked (nudges : Nat → Nat) :
    ∀ (i : Nat) (chat : List Message) (j k : Nat), j ≤ k → k < i →
      (match chat[k]? with | some m => m.is_user = false | none => True) →
      (popPrecAux nudges i chat)[j]? = chat[j]? := by
  intro i
  induction i with
  | zero => intro chat j k _ hk _; omega
  | succ i ih =>
    intro chat j k hjk hki hb
    rw [popPrecAux]
    cases hm : chat[i]? with
    | none => rfl
    | some msg =>
      obtain ⟨mu, mmes, mtrk, mtt⟩ := msg
      cases mu with
      | false => rfl
      | true =>
        have hkne : k ≠ i := by
          intro he; subst he; rw [hm] at hb
          simp only at hb
          cases hb
        have hki' : k < i := by omega
        cases mtt with
        | some t => exact ih chat j k hjk hki' hb
        | none =>
          cases hg : getMostRecentTracker chat i with
          | none => exact ih chat j k hjk hki' hb
          | some tr =>
            show (popPrecAux nudges i
              (chat.set i ⟨true, mmes, mtrk, some (advTracker nudges i tr)⟩))[j]? = chat[j]?
            have hb2 : (match (chat.set i
                ⟨true, mmes, mtrk, some (advTracker nudges i tr)⟩)[k]? with
                | some m => m.is_user = false
                | none => True) := by
              rw [List.getElem?_set_ne (by omega : i ≠ k)]
              exact hb
            rw [ih _ j k hjk hki' hb2]
            exact List.getElem?_set_ne (by omega)

lemma popPrec_keeps (nudges : Nat → Nat) :
    ∀ (i : Nat) (chat : List Message) (j : Nat) (m : Message),
      chat[j]? = some m → m.is_user = true → m.tt.isSome = true →
      (popPrecAux nudges i chat)[j]? = some m := by
  intro i
  induction i with
  | zero => intro chat j m hj _ _; exact hj
  | succ i ih =>
    intro chat j m hj hu htt
    rw [popPrecAux]
    cases hm : chat[i]? with
    | none => exact hj
    | some msg =>
      obtain ⟨mu, mmes, mtrk, mtt⟩ := msg
      cases mu with
      | false => exact hj
      | true =>
        cases mtt with
        | some t => exact ih chat j m hj hu htt
        | none =>
          cases hg : getMostRecentTracker chat i with
          | none => exact ih chat j m hj hu htt
          | some tr =>
            show (popPrecAux nudges i
              (chat.set i ⟨true, mmes, mtrk, some (advTracker nudges i tr)⟩))[j]? = some m
            have hji : i ≠ j := by
              intro he; subst he
              rw [hj] at hm
              injection hm with hm'
              rw [hm'] at htt
              simp at htt
            refine ih _ j m ?_ hu htt
            rw [List.getElem?_set_ne hji]
            exact hj

lemma popPrec_mod (nudges : Nat → Nat) :
    ∀ (i : Nat) (chat : List Message) (j : Nat),
      (popPrecAux nudges i chat)[j]? ≠ chat[j]? →
      ∃ m tr, chat[j]? = some m ∧ m.is_user = true ∧ m.tt = none ∧
        (popPrecAux nudges i chat)[j]? = some { m with tt := some tr } := by
  intro i
  induction i with
  | zero => intro chat j h; exact absurd rfl h
  | succ i ih =>
    intro chat j hne
    rw [popPrecAux] at hne ⊢
    cases hm : chat[i]? with
    | none =>
      simp only [hm] at hne ⊢
      exact absurd rfl hne
    | some msg =>
      obtain ⟨mu, mmes, mtrk, mtt⟩ := msg
      simp only [hm] at hne ⊢
      cases mu with
      | false => exact absurd rfl hne
      | true =>
        cases mtt with
        | some t => exact ih chat j hne
        | none =>
          cases hg : getMostRecentTracker chat i with
          | none =>
            simp only [hg] at hne ⊢
            exact ih chat j hne
          | some tr0 =>
            simp only [hg] at hne ⊢
            replace hne : (popPrecAux nudges i
                (chat.set i ⟨true, mmes, mtrk, some (advTracker nudges i tr0)⟩))[j]?
                ≠ chat[j]? := hne
            by_cases hji : j = i
            · subst hji
              refine ⟨⟨true, mmes, mtrk, none⟩, advTracker nudges j tr0, hm, rfl, rfl, ?_⟩
              show (popPrecAux nudges j
                (chat.set j ⟨true, mmes, mtrk, some (advTracker nudges j tr0)⟩))[j]?
                = some ⟨true, mmes, mtrk, some (advTracker nudges j tr0)⟩
              rw [popPrec_frame_ge nudges j _ j (le_refl j)]
              exact set_getElem?_self hm
            · have hset : (chat.set i
                  ⟨true, mmes, mtrk, some (advTracker nudges i tr0)⟩)[j]? = chat[j]? :=
                List.getElem?_set_ne (by omega)
              by_cases heq : (popPrecAux nudges i
                  (chat.set i ⟨true, mmes, mtrk, some (advTracker nudges i tr0)⟩))[j]?
                  = (chat.set i ⟨true, mmes, mtrk, some (advTracker nudges i tr0)⟩)[j]?
              · rw [heq, hset] at hne
                exact absurd rfl hne
              · obtain ⟨m, tr, hcm, hmu2, hmtt2, hres⟩ := ih _ j heq
                rw [hset] at hcm
                exact ⟨m, tr, hcm, hmu2, hmtt2, hres⟩

/-- C10: `populatePrecedingUserMessages(aiMesId)` is frame-correct:
(a) every index at or after `aiMesId` is unmodified; (b) every index at
or before a non-user (or missing) message below `aiMesId` is unmodified
— the backward scan stops there; (c) user messages that already hold a
tracker are kept unchanged; (d) any modified entry was a user message
without a tracker and the only change is that an inherited tracker was
written into it. -/
theorem C10_populatePreceding_frame (nudges : Nat → Nat) (chat : List Message) (aiMesId : Nat) :
    (∀ j, aiMesId ≤ j →
      (populatePrecedingUserMessages nudges chat aiMesId)[j]? = chat[j]?) ∧
    (∀ j k, j ≤ k → k < aiMesId →
      (match chat[k]? with | some m => m.is_user = false | none => True) →
      (populatePrecedingUserMessages nudges chat aiMesId)[j]? = chat[j]?) ∧
    (∀ (j : Nat) (m : Message), chat[j]? = some m → m.is_user = true → m.tt.isSome = true →
      (populatePrecedingUserMessages nudges chat aiMesId)[j]? = some m) ∧
    (∀ j : Nat, (populatePrecedingUserMessages nudges chat aiMesId)[j]? ≠ chat[j]? →
      ∃ (m : Message) (tr : TrackerState), chat[j]? = some m ∧ m.is_user = true ∧ m.tt = none ∧
        (populatePrecedingUserMessages nudges chat aiMesId)[j]? = some { m with tt := some tr }) :=
  ⟨fun j h => popPrec_frame_ge nudges aiMesId chat j h,
   fun j k h1 h2 h3 => popPrec_frame_blocked nudges aiMesId chat j k h1 h2 h3,
   fun j m h1 h2 h3 => popPrec_keeps nudges aiMesId chat j m h1 h2 h3,
   fun j h => popPrec_mod nudges aiMesId chat j h⟩

/-- C10 (witness): the frame conditions on a concrete four-message chat
(assistant with tracker, bare user, tracked user, assistant). -/
theorem C10_witness :
    (populatePrecedingUserMessages (fun _ => 2) chatInh 3)[3]? = chatInh[3]? ∧
    (populatePrecedingUserMessages (fun _ => 2) chatInh 3)[0]? = chatInh[0]? ∧
    (populatePrecedingUserMessages (fun _ => 2) chatInh 3)[2]?
      = some ⟨true, "b", none, some trHeart500⟩ ∧
    (∃ (m : Message) (tr : TrackerState), chatInh[1]? = some m ∧ m.is_user = true ∧ m.tt = none ∧
      (populatePrecedingUserMessages (fun _ => 2) chatInh 3)[1]? = some { m with tt := some tr }) :=
  ⟨(C10_populatePreceding_frame (fun _ => 2) chatInh 3).1 3 (le_refl 3),
   (C10_populatePreceding_frame (fun _ => 2) chatInh 3).2.1 0 0 (le_refl 0) (by norm_num) rfl,
   (C10_populatePreceding_frame (fun _ => 2) chatInh 3).2.2.1 2 ⟨true, "b", none, some trHeart500⟩ rfl rfl rfl,
   (C10_populatePreceding_frame (fun _ => 2) chatInh 3).2.2.2 1 (by decide)⟩
